import Mathlib

/-!
Verification development for the Aframp transaction-processor workers
(`src/workers/offramp_processor.rs`, `src/workers/onramp_processor.rs`).

The Rust code is shallowly embedded: enums become inductive types, pure
functions become Lean functions, the SQL updates performed by the workers
become explicit transformations of a list of transaction rows, and the
retry loop becomes a structurally recursive function whose fuel mirrors
the bounded retry counter.  External collaborators (the payment providers,
the Stellar client, the `BigDecimal` parser) appear as parameters.
-/

namespace Aframp

/-! ## Offramp state machine (offramp_processor.rs, `OfframpState`) -/

inductive OfframpState where
  | pendingPayment
  | cngnReceived
  | verifyingAmount
  | processingWithdrawal
  | transferPending
  | completed
  | refundInitiated
  | refunding
  | refunded
  | failed
  | expired
deriving DecidableEq, Repr

namespace OfframpState

/-- Embedding of `OfframpState::as_str`. -/
def as_str : OfframpState → String
  | pendingPayment => "pending_payment"
  | cngnReceived => "cngn_received"
  | verifyingAmount => "verifying_amount"
  | processingWithdrawal => "processing_withdrawal"
  | transferPending => "transfer_pending"
  | completed => "completed"
  | refundInitiated => "refund_initiated"
  | refunding => "refunding"
  | refunded => "refunded"
  | failed => "failed"
  | expired => "expired"

/-- Embedding of `OfframpState::from_str`, written as the same ordered
chain of string comparisons as the Rust `match`. -/
def from_str (s : String) : Option OfframpState :=
  if s = "pending_payment" then some pendingPayment
  else if s = "cngn_received" then some cngnReceived
  else if s = "verifying_amount" then some verifyingAmount
  else if s = "processing_withdrawal" then some processingWithdrawal
  else if s = "transfer_pending" then some transferPending
  else if s = "completed" then some completed
  else if s = "refund_initiated" then some refundInitiated
  else if s = "refunding" then some refunding
  else if s = "refunded" then some refunded
  else if s = "failed" then some failed
  else if s = "expired" then some expired
  else none

/-- Embedding of `OfframpState::can_transition_to`.  The Rust `match`
tries the normal-flow arms first, then the guarded arm
`(_, RefundInitiated) if self != Completed && self != Refunded`, then the
refund-flow arms, the expiration arm, and finally `_ => false`; when the
guard fails the scrutinee falls through to `_ => false` because no later
arm has `RefundInitiated` as its second component. -/
def can_transition_to (s next : OfframpState) : Bool :=
  match s, next with
  | pendingPayment, cngnReceived => true
  | cngnReceived, verifyingAmount => true
  | verifyingAmount, processingWithdrawal => true
  | processingWithdrawal, transferPending => true
  | transferPending, completed => true
  | x, refundInitiated => x ≠ completed && x ≠ refunded
  | refundInitiated, refunding => true
  | refunding, refunded => true
  | refunding, failed => true
  | pendingPayment, expired => true
  | _, _ => false

/-- The eleven states, used to express exhaustiveness. -/
def allStates : List OfframpState :=
  [pendingPayment, cngnReceived, verifyingAmount, processingWithdrawal,
   transferPending, completed, refundInitiated, refunding, refunded,
   failed, expired]

end OfframpState

/-! ## Payment-provider surface

Modelled from the spec: the provider error taxonomy and withdrawal
response of §6 (`src/payments/error.rs` and `src/payments/types.rs` are
not among the analysed sources; the workers only match on the
`Network`/`Timeout` variants and read `provider_reference` and
`provider_data` of the response). -/

inductive PaymentError where
  | network (msg : String)
  | timeout
  | provider (msg : String)
  | invalidRequest (msg : String)
deriving DecidableEq, Repr

/-- Modelled from the spec: display text of a provider error; the workers
store it in `failure_reason` but never inspect it. -/
def PaymentError.toStr : PaymentError → String
  | .network m => "network error: " ++ m
  | .timeout => "request timeout"
  | .provider m => "provider error: " ++ m
  | .invalidRequest m => "invalid request: " ++ m

inductive ProviderName where
  | flutterwave
  | paystack
  | mpesa
deriving DecidableEq, Repr

/-- Modelled from the spec: lowercase display name of a provider, as used
in `payment_provider` columns and log fields. -/
def ProviderName.toStr : ProviderName → String
  | .flutterwave => "flutterwave"
  | .paystack => "paystack"
  | .mpesa => "mpesa"

/-- Modelled from the spec: the provider's withdrawal response
(`provider_reference`, `raw_data`). -/
structure WithdrawalResponse where
  provider_reference : Option String
  provider_data : Option String
deriving DecidableEq, Repr

/-! ## Offramp metadata (offramp_processor.rs, `OfframpMetadata`)

Timestamps are threaded as opaque strings (`now` parameters); JSON
payloads are abstracted to strings; decimal amounts are carried as `ℚ`
(`BigDecimal` round-trips exactly through its string form). -/

structure OfframpMetadata where
  account_name : String
  account_number : String
  bank_code : String
  bank_name : Option String := none
  stellar_tx_hash : Option String := none
  stellar_confirmed_at : Option String := none
  stellar_ledger : Option Int := none
  provider_name : Option String := none
  provider_reference : Option String := none
  provider_response : Option String := none
  retry_count : Nat := 0
  last_retry_at : Option String := none
  next_retry_after : Option String := none
  failure_reason : Option String := none
  is_retryable : Bool := false
  refund_tx_hash : Option String := none
  refund_confirmed_at : Option String := none
  refund_amount : Option ℚ := none
deriving DecidableEq, Repr

/-! ## Offramp stage 1: receipt verification
(`OfframpProcessorWorker::process_received_payments`, per transaction) -/

/-- One Stellar operation as read from the Horizon JSON: the worker reads
each field with `.and_then(|v| v.as_str()).unwrap_or("")`, so absent
string fields behave as `""`; the `amount` field is kept as an `Option`
because it is read without a default. -/
structure StellarOp where
  type : String
  to_account : String
  asset_code : String
  asset_issuer : String
  amount : Option String
deriving DecidableEq, Repr

/-- Embedding of `str::eq_ignore_ascii_case`. -/
def asciiLower (c : Char) : Char :=
  if 'A' ≤ c ∧ c ≤ 'Z' then Char.ofNat (c.toNat + 32) else c

def eqIgnoreAsciiCase (a b : String) : Bool :=
  a.toList.map asciiLower = b.toList.map asciiLower

/-- The body of the operation-scanning loop: an operation matches when it
is a payment to the distribution account in (case-insensitive) cNGN from
the configured issuer (any issuer when the configuration is empty). -/
def opMatches (distribution issuer : String) (op : StellarOp) : Bool :=
  op.type = "payment" && op.to_account = distribution &&
    eqIgnoreAsciiCase op.asset_code "cngn" &&
    (issuer = "" || op.asset_issuer = issuer)

/-- The loop breaks at the first matching operation and takes its
`amount` field (which may itself be absent). -/
def findCngnAmount (ops : List StellarOp) (distribution issuer : String) :
    Option String :=
  (ops.find? (opMatches distribution issuer)).bind (·.amount)

/-- What stage 1 does to one `cngn_received` transaction: either skip it
(Stellar fetch failed; retried next cycle) or persist a new status. -/
inductive ReceiptStep where
  | skip
  | write (next : OfframpState)
deriving DecidableEq, Repr

/-- Embedding of the per-transaction body of `process_received_payments`.
`parseDec` stands for `BigDecimal::from_str` on the provider-supplied
amount string; `opsResult` is `none` when the Horizon call failed.  The
expected amount is `BigDecimal::from_str(&tx.from_amount.to_string())`,
an exact round-trip, so it is the transaction's `from_amount` itself and
its error branch is unreachable. -/
def process_received_payment (parseDec : String → Option ℚ)
    (incomingHash : Option String) (opsResult : Option (List StellarOp))
    (distribution issuer : String) (from_amount : ℚ) : ReceiptStep :=
  match incomingHash with
  | none => .write .refundInitiated
  | some _ =>
    match opsResult with
    | none => .skip
    | some ops =>
      match findCngnAmount ops distribution issuer with
      | none => .write .refundInitiated
      | some amtStr =>
        match parseDec amtStr with
        | none => .write .refundInitiated
        | some actual =>
          if from_amount ≠ actual then .write .refundInitiated
          else .write .processingWithdrawal

/-! ## Offramp stage 2: withdrawal initiation
(`OfframpProcessorWorker::process_withdrawal_initiations`, per transaction) -/

/-- The deterministic provider choice: attempts 1 and 2 on Flutterwave,
attempt 3 (and later) on Paystack. -/
def withdrawal_provider (attempt : Nat) : ProviderName :=
  if attempt ≤ 2 then .flutterwave else .paystack

/-- Embedding of the Rust `is_recoverable` classification:
`Network(_) | Timeout => true, _ => false`. -/
def PaymentError.isRecoverable : PaymentError → Bool
  | .network _ => true
  | .timeout => true
  | _ => false

structure WithdrawalStepResult where
  provider : ProviderName
  status : OfframpState
  metadata : OfframpMetadata
deriving DecidableEq, Repr

/-- Embedding of the per-transaction body of
`process_withdrawal_initiations`.  `factoryOk` models
`PaymentProviderFactory::get_provider` succeeding; `outcome` models the
chosen provider's `process_withdrawal` call; `now` is the wall clock
rendered by `chrono::Utc::now().to_rfc3339()`. -/
def process_withdrawal_initiation (md : OfframpMetadata)
    (factoryOk : ProviderName → Bool)
    (outcome : ProviderName → Except PaymentError WithdrawalResponse)
    (now : String) : WithdrawalStepResult :=
  let attempt := md.retry_count + 1
  let max_retries := 3
  let provider := withdrawal_provider attempt
  if ¬ factoryOk provider then
    let reason := "Provider " ++ provider.toStr ++ " not configured"
    ⟨provider, .refundInitiated, { md with failure_reason := some reason }⟩
  else
    match outcome provider with
    | .ok response =>
        ⟨provider, .transferPending,
         { md with provider_name := some provider.toStr,
                   provider_reference := response.provider_reference,
                   provider_response := response.provider_data,
                   retry_count := 0 }⟩
    | .error e =>
        if attempt ≥ max_retries ∨ ¬ e.isRecoverable then
          ⟨provider, .refundInitiated,
           { md with failure_reason := some e.toStr }⟩
        else
          ⟨provider, .processingWithdrawal,
           { md with retry_count := attempt,
                     last_retry_at := some now,
                     failure_reason := some e.toStr }⟩

/-! ## Offramp stage 4: refund processing
(`OfframpProcessorWorker::process_refunds`, per transaction) -/

/-- Embedding of the refund-memo computation: `format!("REFUND-{}", tx_id)`
truncated to the 28-byte Stellar text-memo limit.  Rust's `len()` and
byte slicing coincide with character length and `take` here because the
memo prefix and transaction identifiers are ASCII. -/
def refund_memo (tx_id : String) : String :=
  let memo_str := "REFUND-" ++ tx_id
  if memo_str.length > 28 then memo_str.take 28 else memo_str

/-- The Stellar payment the refund stage builds. -/
structure RefundPayment where
  source : String
  destination : String
  amount : ℚ
  memo : String
deriving DecidableEq, Repr

/-- The fields of the offramp transaction row read by the refund stage. -/
structure OfframpTxRow where
  transaction_id : String
  wallet_address : String
  from_amount : ℚ
  cngn_amount : ℚ
  metadata : OfframpMetadata
deriving DecidableEq, Repr

structure RefundStepResult where
  payment : RefundPayment
  status_writes : List (OfframpState × Option OfframpMetadata)
deriving DecidableEq, Repr

/-- Embedding of the per-transaction body of `process_refunds`.  The
`build`, `sign` and `submit` parameters model
`CngnPaymentBuilder::build_payment` (returning the draft's transaction
hash), `sign_payment` and `submit_signed_payment`; `now` is the rendered
wall clock.  The worker writes `refunding` unconditionally before any of
the three calls, then writes the final status with merged metadata. -/
def process_refund (tx : OfframpTxRow)
    (system_wallet_address : String)
    (build : Except String String) (sign : Except String Unit)
    (submit : Except String Unit) (now : String) : RefundStepResult :=
  let md := tx.metadata
  let amount := tx.cngn_amount
  let payment : RefundPayment :=
    ⟨system_wallet_address, tx.wallet_address, amount,
     refund_memo tx.transaction_id⟩
  let finalWrite : OfframpState × Option OfframpMetadata :=
    match build with
    | .error e =>
        (.failed, some { md with
          failure_reason := some ("Stellar build error: " ++ e) })
    | .ok draft_hash =>
        match sign with
        | .error e =>
            (.failed, some { md with
              failure_reason := some ("Stellar signing error: " ++ e) })
        | .ok _ =>
            match submit with
            | .error e =>
                (.failed, some { md with
                  failure_reason := some ("Stellar submission error: " ++ e) })
            | .ok _ =>
                (.refunded, some { md with
                  refund_tx_hash := some draft_hash,
                  refund_amount := some amount,
                  refund_confirmed_at := some now })
  { payment := payment,
    status_writes := [(.refunding, none), finalWrite] }

/-! ## Onramp processor (onramp_processor.rs) -/

/-- The `ProcessorError` variants reachable in the payment-confirmed
flow; `toStr` mirrors the `thiserror` display attributes. -/
inductive ProcError where
  | stellar (msg : String)
  | stellarTransient (msg : String)
  | stellarPermanent (msg : String)
  | internal (msg : String)
deriving DecidableEq, Repr

def ProcError.toStr : ProcError → String
  | .stellar m => "stellar error: " ++ m
  | .stellarTransient m => "stellar transient error: " ++ m
  | .stellarPermanent m => "stellar permanent error: " ++ m
  | .internal m => "internal error: " ++ m

/-- Embedding of `matches!(e, ProcessorError::StellarTransientError(_))`. -/
def ProcError.isTransient : ProcError → Bool
  | .stellarTransient _ => true
  | _ => false

/-- Embedding of `FailureReason`. -/
inductive FailureReason where
  | paymentTimeout
  | paymentFailed
  | trustlineNotFound
  | insufficientCngnBalance
  | stellarTransientError
  | stellarPermanentError
  | unknownError
deriving DecidableEq, Repr

def FailureReason.as_str : FailureReason → String
  | .paymentTimeout => "PAYMENT_TIMEOUT"
  | .paymentFailed => "PAYMENT_FAILED"
  | .trustlineNotFound => "TRUSTLINE_NOT_FOUND"
  | .insufficientCngnBalance => "INSUFFICIENT_CNGN_BALANCE"
  | .stellarTransientError => "STELLAR_TRANSIENT_ERROR"
  | .stellarPermanentError => "STELLAR_PERMANENT_ERROR"
  | .unknownError => "UNKNOWN_ERROR"

/-- Embedding of `OnrampProcessorConfig` (the fields the modelled flow
reads). -/
structure OnrampProcessorConfig where
  poll_interval_secs : Nat
  pending_timeout_mins : Nat
  stellar_max_retries : Nat
  stellar_retry_backoff_secs : List Nat
  stellar_confirmation_poll_secs : Nat
  stellar_confirmation_timeout_mins : Nat
  refund_max_retries : Nat
  refund_retry_backoff_secs : List Nat
deriving DecidableEq, Repr

/-- Embedding of `OnrampProcessorConfig::default`. -/
def OnrampProcessorConfig.default : OnrampProcessorConfig :=
  ⟨30, 30, 3, [2, 4, 8], 10, 5, 3, [30, 60, 120]⟩

/-- Modelled from the spec: the transaction row (§3).  The Rust
`Transaction` struct lives in `database/transaction_repository.rs`, which
is not among the analysed sources; the fields here are those the workers
read, with `cngn_amount` included because both workers use it (it also
appears in the repository's onramp test mock alongside `from_amount`). -/
structure Transaction where
  transaction_id : String
  wallet_address : String
  from_amount : ℚ
  cngn_amount : ℚ
  status : String
  payment_provider : Option String
  payment_reference : Option String
  blockchain_tx_hash : Option String
  error_message : Option String
deriving DecidableEq, Repr

/-- The database is a list of transaction rows; each SQL statement the
worker issues becomes a transformation of this list. -/
def find_by_id (db : List Transaction) (txId : String) : Option Transaction :=
  db.find? (fun r => r.transaction_id = txId)

/-- Embedding of the claim update in `process_payment_confirmed`:
`UPDATE transactions SET status = 'processing' WHERE transaction_id = $1
AND status = 'pending'`, together with its rows-affected count. -/
def claim_pending (db : List Transaction) (txId : String) :
    List Transaction × Nat :=
  (db.map (fun r =>
      if r.transaction_id = txId ∧ r.status = "pending"
      then { r with status := "processing" } else r),
   (db.filter (fun r =>
      r.transaction_id = txId ∧ r.status = "pending")).length)

/-- Embedding of `mark_transaction_failed`'s SQL:
`UPDATE transactions SET status = 'failed', error_message = $1 WHERE
transaction_id = $2` — the predicate tests only the id, not the current
status. -/
def mark_transaction_failed (db : List Transaction) (txId message : String) :
    List Transaction :=
  db.map fun r =>
    if r.transaction_id = txId
    then { r with status := "failed", error_message := some message } else r

/-- Embedding of `mark_transaction_completed`'s SQL: conditioned on
`status = 'processing'`. -/
def mark_transaction_completed (db : List Transaction) (txId : String) :
    List Transaction :=
  db.map fun r =>
    if r.transaction_id = txId ∧ r.status = "processing"
    then { r with status := "completed" } else r

/-- Embedding of the hash store in `execute_cngn_transfer`: conditioned on
`status = 'processing'`. -/
def store_blockchain_hash (db : List Transaction) (txId hash : String) :
    List Transaction :=
  db.map fun r =>
    if r.transaction_id = txId ∧ r.status = "processing"
    then { r with blockchain_tx_hash := some hash } else r

/-! ### The Stellar submission retry loop (`submit_cngn_transfer`) -/

/-- Result, number of attempts performed, and the sleeps (in seconds)
taken before each retry. -/
structure SubmitTrace where
  result : Except ProcError String
  attempts_made : Nat
  sleeps : List Nat
deriving Repr

/-- Embedding of the loop body of `submit_cngn_transfer`.  `attempts k`
is the outcome of `attempt_cngn_transfer` on the k-th iteration (the
attempt itself is a TODO stub in the source, so it is a parameter);
`fuel` is `stellar_max_retries - retry_count`, so `fuel = 0` is exactly
the `retry_count >= stellar_max_retries` check, which the source performs
before the transient classification. -/
def submit_aux (backoff : List Nat)
    (attempts : Nat → Except ProcError String) :
    Nat → Nat → SubmitTrace
  | fuel, k =>
    match attempts k with
    | .ok hash => ⟨.ok hash, k + 1, []⟩
    | .error e =>
      match fuel with
      | 0 => ⟨.error e, k + 1, []⟩
      | fuel' + 1 =>
        if e.isTransient then
          let rest := submit_aux backoff attempts fuel' (k + 1)
          ⟨rest.result, rest.attempts_made, ((backoff.get? k).getD 8) :: rest.sleeps⟩
        else ⟨.error e, k + 1, []⟩

/-- Embedding of `submit_cngn_transfer`: the loop starts with
`retry_count = 0`. -/
def submit_cngn_transfer (cfg : OnrampProcessorConfig)
    (attempts : Nat → Except ProcError String) : SubmitTrace :=
  submit_aux cfg.stellar_retry_backoff_secs attempts cfg.stellar_max_retries 0

/-! ### `execute_cngn_transfer` and `process_payment_confirmed` -/

/-- Embedding of the placeholder `verify_trustline` (the source returns
`Ok(true)` unconditionally; a TODO). -/
def verify_trustline (_wallet_address : String) : Bool := true

/-- Embedding of the placeholder `verify_cngn_liquidity` (the source
returns `Ok(true)` unconditionally; a TODO). -/
def verify_cngn_liquidity (_amount : ℚ) : Bool := true

/-- The externally visible calls the onramp flow makes besides its SQL
writes. -/
inductive OnrampAction where
  | markFailed (reason : FailureReason) (message : String)
  | initiateRefund (reason : FailureReason)
  | storeHash (hash : String)
deriving DecidableEq, Repr

structure ExecOutcome where
  db : List Transaction
  actions : List OnrampAction
  attempts_made : Nat
deriving DecidableEq, Repr

/-- Embedding of `execute_cngn_transfer`: trustline check, liquidity
check, then submission with retries; on a transient final error the
transaction is left as-is, on any other error it is marked failed and a
fiat refund is initiated. -/
def execute_cngn_transfer (cfg : OnrampProcessorConfig)
    (db : List Transaction) (tx : Transaction)
    (attempts : Nat → Except ProcError String) : ExecOutcome :=
  if ¬ verify_trustline tx.wallet_address then
    let msg := "Trustline not found for wallet " ++ tx.wallet_address
    ⟨mark_transaction_failed db tx.transaction_id msg,
     [.markFailed .trustlineNotFound msg, .initiateRefund .trustlineNotFound], 0⟩
  else if ¬ verify_cngn_liquidity tx.cngn_amount then
    let msg := "Insufficient cNGN balance in system"
    ⟨mark_transaction_failed db tx.transaction_id msg,
     [.markFailed .insufficientCngnBalance msg,
      .initiateRefund .insufficientCngnBalance], 0⟩
  else
    let trace := submit_cngn_transfer cfg attempts
    match trace.result with
    | .ok hash =>
        ⟨store_blockchain_hash db tx.transaction_id hash,
         [.storeHash hash], trace.attempts_made⟩
    | .error e =>
        if e.isTransient then
          ⟨db, [], trace.attempts_made⟩
        else
          ⟨mark_transaction_failed db tx.transaction_id e.toStr,
           [.markFailed .stellarPermanentError e.toStr,
            .initiateRefund .stellarPermanentError], trace.attempts_made⟩

structure ConfirmOutcome where
  db : List Transaction
  result : Except ProcError Unit
  actions : List OnrampAction
  attempts_made : Nat
deriving Repr

/-- Embedding of `process_payment_confirmed`: fetch, amount check, claim
update (whose rows-affected count the source discards), then the cNGN
transfer.  All writes before the amount check are reads, so a mismatch
leaves the database untouched. -/
def process_payment_confirmed (cfg : OnrampProcessorConfig)
    (db : List Transaction) (txId : String) (amount_ngn : ℚ)
    (attempts : Nat → Except ProcError String) : ConfirmOutcome :=
  match find_by_id db txId with
  | none => ⟨db, .error (.internal ("Transaction not found: " ++ txId)), [], 0⟩
  | some tx =>
    if tx.from_amount ≠ amount_ngn then
      ⟨db, .error (.internal "Amount mismatch"), [], 0⟩
    else
      let db1 := (claim_pending db txId).1
      let ex := execute_cngn_transfer cfg db1 tx attempts
      ⟨ex.db, .ok (), ex.actions, ex.attempts_made⟩

/-! ## Claims -/

set_option maxHeartbeats 1000000 in
/-- C10: the string encoding of offramp states round-trips:
`from_str (as_str s) = some s` for each of the eleven states (so `as_str`
is injective), and `from_str` maps any string that is not one of the
eleven encodings to `none` (equivalently, a successful parse only ever
returns the state whose encoding was parsed). -/
theorem C10_state_string_roundtrip :
    (∀ s : OfframpState, OfframpState.from_str (OfframpState.as_str s) = some s) ∧
    (∀ str s, OfframpState.from_str str = some s → str = OfframpState.as_str s) := by
  constructor
  · intro s
    cases s <;> rfl
  · intro str s h
    unfold OfframpState.from_str at h
    split_ifs at h <;> cases h <;> assumption

/-- Witness for C10 at concrete inputs. -/
theorem C10_state_string_roundtrip_witness :
    OfframpState.from_str (OfframpState.as_str OfframpState.refunding)
      = some OfframpState.refunding ∧
    "refunding" = OfframpState.as_str OfframpState.refunding :=
  ⟨C10_state_string_roundtrip.1 OfframpState.refunding,
   C10_state_string_roundtrip.2 "refunding" OfframpState.refunding rfl⟩

/-- C1 counterexample: the claim that every terminal status has no
outgoing transition and that every processor write is conditioned on a
non-terminal status is false on the code: `can_transition_to` accepts
`failed → refund_initiated` and `expired → refund_initiated` (the guard
only excludes `completed` and `refunded`), and `mark_transaction_failed`
overwrites a `completed` row because its `UPDATE` tests only the
transaction id. -/
theorem C1_terminal_states_counterexample :
    OfframpState.can_transition_to OfframpState.failed OfframpState.refundInitiated = true ∧
    OfframpState.can_transition_to OfframpState.expired OfframpState.refundInitiated = true ∧
    mark_transaction_failed
        [⟨"tx-1", "GWALLET", 100, 100, "completed", none, none, some "h", none⟩]
        "tx-1" "boom"
      = [⟨"tx-1", "GWALLET", 100, 100, "failed", none, none, some "h", some "boom"⟩] := by
  refine ⟨rfl, rfl, ?_⟩
  simp [mark_transaction_failed]

/-- C1 (amended): `completed` and `refunded` have no outgoing transition
at all; `failed` and `expired` each admit exactly one outgoing
transition, to `refund_initiated`; and the failure write of the onramp
processor is conditioned only on the transaction id, so it rewrites the
matching row whatever its current status (in particular a `completed`
row). -/
theorem C1_terminal_states_amended :
    (∀ s, OfframpState.can_transition_to OfframpState.completed s = false) ∧
    (∀ s, OfframpState.can_transition_to OfframpState.refunded s = false) ∧
    (∀ s, OfframpState.can_transition_to OfframpState.failed s = true ↔
       s = OfframpState.refundInitiated) ∧
    (∀ s, OfframpState.can_transition_to OfframpState.expired s = true ↔
       s = OfframpState.refundInitiated) ∧
    (∀ db txId msg r, r ∈ db → r.transaction_id = txId →
       { r with status := "failed", error_message := some msg }
         ∈ mark_transaction_failed db txId msg) := by
  refine ⟨?_, ?_, ?_, ?_, ?_⟩
  · intro s; cases s <;> rfl
  · intro s; cases s <;> rfl
  · intro s; cases s <;> simp [OfframpState.can_transition_to]
  · intro s; cases s <;> simp [OfframpState.can_transition_to]
  · intro db txId msg r hr he
    have : (fun x : Transaction =>
        if x.transaction_id = txId
        then { x with status := "failed", error_message := some msg } else x) r
        = { r with status := "failed", error_message := some msg } := by
      simp [he]
    exact this ▸ List.mem_map_of_mem _ hr

/-- Witness for C1 (amended) at concrete inputs. -/
theorem C1_terminal_states_witness :
    OfframpState.can_transition_to OfframpState.completed OfframpState.failed = false ∧
    ({ transaction_id := "tx-1", wallet_address := "GWALLET",
       from_amount := (100 : ℚ), cngn_amount := (100 : ℚ),
       status := "failed", payment_provider := none, payment_reference := none,
       blockchain_tx_hash := some "h", error_message := some "boom" : Transaction }
      ∈ mark_transaction_failed
          [⟨"tx-1", "GWALLET", 100, 100, "completed", none, none, some "h", none⟩]
          "tx-1" "boom") :=
  ⟨C1_terminal_states_amended.1 OfframpState.failed,
   C1_terminal_states_amended.2.2.2.2
     [⟨"tx-1", "GWALLET", 100, 100, "completed", none, none, some "h", none⟩]
     "tx-1" "boom"
     ⟨"tx-1", "GWALLET", 100, 100, "completed", none, none, some "h", none⟩
     (List.mem_singleton.mpr rfl) rfl⟩

/-- C2: the code violates the claim (and its own transition table).  On a
perfect amount match, stage 1 persists `cngn_received →
processing_withdrawal` directly — a transition `can_transition_to`
rejects — instead of advancing to `verifying_amount`.  Evaluated at a
concrete `cngn_received` transaction whose on-chain cNGN payment equals
`from_amount`. -/
theorem C2_receipt_transition_bug :
    process_received_payment
        (fun s => if s = "100" then some (100 : ℚ) else none)
        (some "abc123")
        (some [⟨"payment", "GDIST", "cNGN", "GISS", some "100"⟩])
        "GDIST" "GISS" (100 : ℚ)
      = ReceiptStep.write OfframpState.processingWithdrawal ∧
    OfframpState.can_transition_to OfframpState.cngnReceived
        OfframpState.processingWithdrawal = false ∧
    OfframpState.can_transition_to OfframpState.cngnReceived
        OfframpState.verifyingAmount = true := by
  refine ⟨?_, rfl, rfl⟩
  rfl

/-- C3: the code violates the claim.  The claim update is indeed
conditional (`status = 'processing'` only where `status = 'pending'`),
but the worker discards its rows-affected count: with a transaction that
another actor has already claimed (status `processing`), the update
affects zero rows yet the worker still attempts the cNGN transfer — one
Stellar submission is made and the resulting hash is written onto the
row. -/
theorem C3_claim_race_bug :
    (claim_pending
        [⟨"tx-1", "GW", 50000, 100, "processing", some "flutterwave",
          some "FLW_REF_123", none, none⟩] "tx-1").2 = 0 ∧
    (process_payment_confirmed OnrampProcessorConfig.default
        [⟨"tx-1", "GW", 50000, 100, "processing", some "flutterwave",
          some "FLW_REF_123", none, none⟩]
        "tx-1" (50000 : ℚ) (fun _ => .ok "hash-1")).attempts_made = 1 ∧
    (process_payment_confirmed OnrampProcessorConfig.default
        [⟨"tx-1", "GW", 50000, 100, "processing", some "flutterwave",
          some "FLW_REF_123", none, none⟩]
        "tx-1" (50000 : ℚ) (fun _ => .ok "hash-1")).actions
      = [OnrampAction.storeHash "hash-1"] ∧
    (process_payment_confirmed OnrampProcessorConfig.default
        [⟨"tx-1", "GW", 50000, 100, "processing", some "flutterwave",
          some "FLW_REF_123", none, none⟩]
        "tx-1" (50000 : ℚ) (fun _ => .ok "hash-1")).db
      = [⟨"tx-1", "GW", 50000, 100, "processing", some "flutterwave",
          some "FLW_REF_123", some "hash-1", none⟩] := by
  refine ⟨?_, ?_, ?_, ?_⟩ <;> rfl

/-- C5: a provider-reported amount different from `from_amount` is
rejected before any database write: the outcome keeps the database
unchanged, returns the amount-mismatch error, performs no external
action and makes no Stellar attempt. -/
theorem C5_amount_mismatch_rejected (cfg : OnrampProcessorConfig)
    (db : List Transaction) (txId : String) (amount_ngn : ℚ)
    (attempts : Nat → Except ProcError String) (tx : Transaction)
    (hfind : find_by_id db txId = some tx)
    (hne : tx.from_amount ≠ amount_ngn) :
    process_payment_confirmed cfg db txId amount_ngn attempts
      = ⟨db, .error (.internal "Amount mismatch"), [], 0⟩ := by
  unfold process_payment_confirmed
  rw [hfind]
  simp [hne]

/-- Witness for C5: the S3 scenario (expected 50000, webhook says 49999)
on a concrete pending transaction. -/
theorem C5_amount_mismatch_witness :
    process_payment_confirmed OnrampProcessorConfig.default
        [⟨"tx-1", "GW", 50000, 100, "pending", some "flutterwave",
          some "FLW_REF_123", none, none⟩]
        "tx-1" (49999 : ℚ) (fun _ => .ok "hash-1")
      = ⟨[⟨"tx-1", "GW", 50000, 100, "pending", some "flutterwave",
           some "FLW_REF_123", none, none⟩],
         .error (.internal "Amount mismatch"), [], 0⟩ :=
  C5_amount_mismatch_rejected OnrampProcessorConfig.default _ "tx-1" 49999 _
    ⟨"tx-1", "GW", 50000, 100, "pending", some "flutterwave",
     some "FLW_REF_123", none, none⟩ rfl (by norm_num)

set_option maxRecDepth 8000 in
/-- C8 counterexample: on the S8 transaction id the computed memo is the
28-byte truncation `"REFUND-11111111-2222-3333-44"`, not the 25-byte
string `"REFUND-11111111-2222-3333"` the claim expects. -/
theorem C8_refund_memo_counterexample :
    refund_memo "11111111-2222-3333-4444-555555555555"
      = "REFUND-11111111-2222-3333-44" ∧
    "REFUND-11111111-2222-3333-44" ≠ "REFUND-11111111-2222-3333" := by
  refine ⟨?_, by decide⟩
  rfl

set_option maxRecDepth 8000 in
/-- C8 (amended): the memo is `"REFUND-"` followed by the transaction id,
truncated to at most 28 bytes — on the S8 id that is `"REFUND-"` plus the
first 21 bytes of the id, i.e. `"REFUND-11111111-2222-3333-44"`. -/
theorem C8_refund_memo_amended :
    refund_memo "11111111-2222-3333-4444-555555555555"
      = "REFUND-" ++ String.take "11111111-2222-3333-4444-555555555555" 21 ∧
    (refund_memo "11111111-2222-3333-4444-555555555555").length = 28 := by
  refine ⟨?_, ?_⟩ <;> rfl

/-- C4 counterexample: the refund stage builds the payment from the row's
`cngn_amount` column, not `from_amount`; on a row where the two differ
(here 99 vs 100) the refund amount is not `from_amount`, contrary to the
claim. -/
theorem C4_refund_amount_counterexample :
    (process_refund
        { transaction_id := "tx-1", wallet_address := "GUSER",
          from_amount := (100 : ℚ), cngn_amount := (99 : ℚ),
          metadata := { account_name := "John Doe",
                        account_number := "0123456789", bank_code := "058" } }
        "GSYS" (.ok "draft-hash") (.ok ()) (.ok ()) "t0").payment.amount
      = (99 : ℚ) ∧ (99 : ℚ) ≠ (100 : ℚ) := by
  exact ⟨rfl, by norm_num⟩

/-- C4 (amended): refund processing writes `refunding` first, before the
build/sign/submit outcomes are consulted; the refund payment goes from
the system wallet to the user's wallet with the memo of `refund_memo` and
amount equal to the row's `cngn_amount` (not `from_amount`); the final
persisted status is `refunded` exactly when build, sign and submit all
succeed, and `failed` on any build, sign or submit error. -/
theorem C4_refund_step_amended (tx : OfframpTxRow) (sys : String)
    (build : Except String String) (sign submit : Except String Unit)
    (now : String) :
    (process_refund tx sys build sign submit now).status_writes.head?
      = some (OfframpState.refunding, none) ∧
    (process_refund tx sys build sign submit now).payment
      = ⟨sys, tx.wallet_address, tx.cngn_amount, refund_memo tx.transaction_id⟩ ∧
    (process_refund tx sys build sign submit now).status_writes.map Prod.fst
      = [OfframpState.refunding,
         if build.isOk && sign.isOk && submit.isOk then OfframpState.refunded
         else OfframpState.failed] := by
  refine ⟨rfl, rfl, ?_⟩
  cases build <;> cases sign <;> cases submit <;> rfl

/-- C7: withdrawal initiation selects the provider deterministically from
the attempt number (`retry_count + 1`): attempts 1 and 2 use Flutterwave,
attempt 3 uses Paystack.  On success the provider reference lands in
metadata and the status becomes `transfer_pending`; on a recoverable
(network/timeout) error before the 3rd attempt the retry counter becomes
the attempt number and the status stays `processing_withdrawal`; on a
non-recoverable error, or on the 3rd attempt, the status becomes
`refund_initiated`. -/
theorem C7_withdrawal_initiation_policy (md : OfframpMetadata)
    (factoryOk : ProviderName → Bool)
    (outcome : ProviderName → Except PaymentError WithdrawalResponse)
    (now : String)
    (hfac : factoryOk (withdrawal_provider (md.retry_count + 1)) = true) :
    (process_withdrawal_initiation md factoryOk outcome now).provider
        = withdrawal_provider (md.retry_count + 1) ∧
    (withdrawal_provider 1 = ProviderName.flutterwave ∧
     withdrawal_provider 2 = ProviderName.flutterwave ∧
     withdrawal_provider 3 = ProviderName.paystack) ∧
    (∀ resp, outcome (withdrawal_provider (md.retry_count + 1)) = .ok resp →
       (process_withdrawal_initiation md factoryOk outcome now).status
           = OfframpState.transferPending ∧
       (process_withdrawal_initiation md factoryOk outcome now).metadata.provider_reference
           = resp.provider_reference ∧
       (process_withdrawal_initiation md factoryOk outcome now).metadata.provider_name
           = some (withdrawal_provider (md.retry_count + 1)).toStr) ∧
    (∀ e, outcome (withdrawal_provider (md.retry_count + 1)) = .error e →
       e.isRecoverable = true → md.retry_count + 1 < 3 →
       (process_withdrawal_initiation md factoryOk outcome now).status
           = OfframpState.processingWithdrawal ∧
       (process_withdrawal_initiation md factoryOk outcome now).metadata.retry_count
           = md.retry_count + 1) ∧
    (∀ e, outcome (withdrawal_provider (md.retry_count + 1)) = .error e →
       (e.isRecoverable = false ∨ 3 ≤ md.retry_count + 1) →
       (process_withdrawal_initiation md factoryOk outcome now).status
           = OfframpState.refundInitiated) := by
  refine ⟨?_, ⟨rfl, rfl, rfl⟩, ?_, ?_, ?_⟩
  · cases hout : outcome (withdrawal_provider (md.retry_count + 1)) with
    | ok resp => simp [process_withdrawal_initiation, hfac, hout]
    | error e =>
      simp only [process_withdrawal_initiation, hfac, hout]
      split_ifs <;> rfl
  · intro resp hout
    simp [process_withdrawal_initiation, hfac, hout]
  · intro e hout hrec hlt
    have hcond : ¬ (2 ≤ md.retry_count ∨ e.isRecoverable = false) := by
      push_neg
      exact ⟨by omega, by simp [hrec]⟩
    simp [process_withdrawal_initiation, hfac, hout, hcond]
  · intro e hout hperm
    have hcond : 2 ≤ md.retry_count ∨ e.isRecoverable = false := by
      rcases hperm with h | h
      · exact Or.inr h
      · exact Or.inl (by omega)
    simp [process_withdrawal_initiation, hfac, hout, hcond]

/-- Witness for C7: the S6 first attempt succeeding on Flutterwave. -/
theorem C7_withdrawal_initiation_witness :
    (process_withdrawal_initiation
        { account_name := "John Doe", account_number := "0123456789",
          bank_code := "058" }
        (fun _ => true) (fun _ => Except.ok ⟨some "FLW-REF", none⟩)
        "t0").status = OfframpState.transferPending ∧
    (process_withdrawal_initiation
        { account_name := "John Doe", account_number := "0123456789",
          bank_code := "058" }
        (fun _ => true) (fun _ => Except.ok ⟨some "FLW-REF", none⟩)
        "t0").metadata.provider_reference = some "FLW-REF" :=
  ⟨((C7_withdrawal_initiation_policy _ _ _ "t0" rfl).2.2.1
      ⟨some "FLW-REF", none⟩ rfl).1,
   ((C7_withdrawal_initiation_policy _ _ _ "t0" rfl).2.2.1
      ⟨some "FLW-REF", none⟩ rfl).2.1⟩

/-- C6 counterexample: with every attempt failing on a transient error
(`tx_bad_seq`), the retry budget is exhausted after 4 attempts, the final
error is still classified transient, and `execute_cngn_transfer` leaves
the row in `processing` with no failure mark and no refund — contrary to
the claim that exhaustion of the transient budget escalates. -/
theorem C6_transient_exhaustion_counterexample :
    execute_cngn_transfer OnrampProcessorConfig.default
        [⟨"tx-1", "GW", 50000, 100, "processing", none, none, none, none⟩]
        ⟨"tx-1", "GW", 50000, 100, "processing", none, none, none, none⟩
        (fun _ => .error (.stellarTransient "tx_bad_seq"))
      = ⟨[⟨"tx-1", "GW", 50000, 100, "processing", none, none, none, none⟩],
         [], 4⟩ ∧
    (submit_cngn_transfer OnrampProcessorConfig.default
        (fun _ => .error (.stellarTransient "tx_bad_seq"))).sleeps
      = [2, 4, 8] := by
  exact ⟨rfl, rfl⟩

/-- C6 (amended): when the submission loop ends in a non-transient error
the transaction is marked failed (reason `STELLAR_PERMANENT_ERROR`,
message the error text) and a fiat refund is initiated; but when the loop
ends in a transient error — which is what happens when the transient
retry budget is exhausted — the transaction is left in `processing` with
no failure mark and no refund. -/
theorem C6_submission_failure_amended (cfg : OnrampProcessorConfig)
    (db : List Transaction) (tx : Transaction)
    (attempts : Nat → Except ProcError String) (e : ProcError)
    (herr : (submit_cngn_transfer cfg attempts).result = .error e) :
    (e.isTransient = false →
       execute_cngn_transfer cfg db tx attempts
         = ⟨mark_transaction_failed db tx.transaction_id e.toStr,
            [.markFailed .stellarPermanentError e.toStr,
             .initiateRefund .stellarPermanentError],
            (submit_cngn_transfer cfg attempts).attempts_made⟩) ∧
    (e.isTransient = true →
       execute_cngn_transfer cfg db tx attempts
         = ⟨db, [], (submit_cngn_transfer cfg attempts).attempts_made⟩) := by
  constructor <;> intro ht <;>
    simp [execute_cngn_transfer, verify_trustline, verify_cngn_liquidity,
          herr, ht]

/-- Witness for C6 (amended): a first-attempt permanent error
(`op_no_trust`) marks the transaction failed and initiates the refund. -/
theorem C6_submission_failure_witness :
    execute_cngn_transfer OnrampProcessorConfig.default
        [⟨"tx-1", "GW", 50000, 100, "processing", none, none, none, none⟩]
        ⟨"tx-1", "GW", 50000, 100, "processing", none, none, none, none⟩
        (fun _ => .error (.stellarPermanent "op_no_trust"))
      = ⟨mark_transaction_failed
           [⟨"tx-1", "GW", 50000, 100, "processing", none, none, none, none⟩]
           "tx-1" (ProcError.stellarPermanent "op_no_trust").toStr,
         [.markFailed .stellarPermanentError
            (ProcError.stellarPermanent "op_no_trust").toStr,
          .initiateRefund .stellarPermanentError], 1⟩ :=
  (C6_submission_failure_amended OnrampProcessorConfig.default
      [⟨"tx-1", "GW", 50000, 100, "processing", none, none, none, none⟩]
      ⟨"tx-1", "GW", 50000, 100, "processing", none, none, none, none⟩
      (fun _ => .error (.stellarPermanent "op_no_trust"))
      (.stellarPermanent "op_no_trust") rfl).1 rfl

/-- Characterisation of the retry loop `submit_aux`, by induction on the
remaining budget: at least one and at most `fuel + 1` attempts are made
from position `k`; every attempt before the last failed with a transient
error; the returned result is the outcome of the last attempt; and the
sleeps are exactly the backoff entries (default 8 beyond the vector) for
the retried positions. -/
theorem submit_aux_spec (backoff : List Nat)
    (attempts : Nat → Except ProcError String) :
    ∀ fuel k,
      k + 1 ≤ (submit_aux backoff attempts fuel k).attempts_made ∧
      (submit_aux backoff attempts fuel k).attempts_made ≤ k + fuel + 1 ∧
      (∀ i, k ≤ i → i + 1 < (submit_aux backoff attempts fuel k).attempts_made →
         ∃ m, attempts i = .error (.stellarTransient m)) ∧
      (submit_aux backoff attempts fuel k).result
        = attempts ((submit_aux backoff attempts fuel k).attempts_made - 1) ∧
      (submit_aux backoff attempts fuel k).sleeps
        = (List.range' k ((submit_aux backoff attempts fuel k).attempts_made - 1 - k)).map
            (fun i => (backoff.get? i).getD 8) := by
  intro fuel
  induction fuel with
  | zero =>
    intro k
    cases hatt : attempts k <;>
      simp [submit_aux, hatt] <;>
      exact fun i hki hik => absurd hik (by omega)
  | succ f ih =>
    intro k
    cases hatt : attempts k with
    | ok h =>
      simp [submit_aux, hatt]
      exact fun i hki hik => absurd hik (by omega)
    | error e =>
      cases htr : e.isTransient with
      | false =>
        simp [submit_aux, hatt, htr]
        exact fun i hki hik => absurd hik (by omega)
      | true =>
        obtain ⟨m, rfl⟩ : ∃ m, e = ProcError.stellarTransient m := by
          cases e <;> simp [ProcError.isTransient] at htr
          exact ⟨_, rfl⟩
        obtain ⟨ih1, ih2, ih3, ih4, ih5⟩ := ih (k + 1)
        have hred : submit_aux backoff attempts (f + 1) k
            = ⟨(submit_aux backoff attempts f (k + 1)).result,
               (submit_aux backoff attempts f (k + 1)).attempts_made,
               ((backoff.get? k).getD 8)
                 :: (submit_aux backoff attempts f (k + 1)).sleeps⟩ := by
          rw [submit_aux, hatt]
          rfl
        rw [hred]
        dsimp only
        refine ⟨by omega, by omega, ?_, ih4, ?_⟩
        · intro i hki hik
          rcases Nat.eq_or_lt_of_le hki with h | h
          · exact ⟨m, h ▸ hatt⟩
          · exact ih3 i h hik
        · have hn : (submit_aux backoff attempts f (k + 1)).attempts_made - 1 - k
              = ((submit_aux backoff attempts f (k + 1)).attempts_made - 1 - (k + 1)) + 1 := by
            omega
          rw [hn, List.range'_succ, List.map_cons, ih5]

/-- C9: for any sequence of attempt outcomes, the submission loop makes
between 1 and `stellar_max_retries + 1` attempts (so at most
`stellar_max_retries` retries beyond the first); every attempt before the
last failed with a transient error (a non-transient outcome is returned
immediately, and only transient errors are retried); the returned result
is the outcome of the last attempt (in particular the last error when the
budget is exhausted); the n-th retry is preceded by a sleep of the n-th
backoff entry; and the default configuration retries 3 times with backoff
2s/4s/8s. -/
theorem C9_submit_retry_policy (cfg : OnrampProcessorConfig)
    (attempts : Nat → Except ProcError String) :
    1 ≤ (submit_cngn_transfer cfg attempts).attempts_made ∧
    (submit_cngn_transfer cfg attempts).attempts_made
        ≤ cfg.stellar_max_retries + 1 ∧
    (∀ i, i + 1 < (submit_cngn_transfer cfg attempts).attempts_made →
       ∃ m, attempts i = .error (.stellarTransient m)) ∧
    (submit_cngn_transfer cfg attempts).result
      = attempts ((submit_cngn_transfer cfg attempts).attempts_made - 1) ∧
    (submit_cngn_transfer cfg attempts).sleeps
      = (List.range ((submit_cngn_transfer cfg attempts).attempts_made - 1)).map
          (fun i => (cfg.stellar_retry_backoff_secs.get? i).getD 8) ∧
    OnrampProcessorConfig.default.stellar_max_retries = 3 ∧
    OnrampProcessorConfig.default.stellar_retry_backoff_secs = [2, 4, 8] := by
  simp only [submit_cngn_transfer]
  obtain ⟨h1, h2, h3, h4, h5⟩ :=
    submit_aux_spec cfg.stellar_retry_backoff_secs attempts
      cfg.stellar_max_retries 0
  refine ⟨by omega, by omega, ?_, h4, ?_, rfl, rfl⟩
  · intro i hik
    exact h3 i (Nat.zero_le i) hik
  · rw [List.range_eq_range']
    simpa using h5

/-- Witness for C9: one transient failure then success — two attempts,
one sleep of the first backoff entry, final result the success. -/
theorem C9_submit_retry_witness :
    ∃ m, (fun k => if k = 0
            then Except.error (ProcError.stellarTransient "tx_bad_seq")
            else Except.ok "stellar-hash") 0
          = Except.error (ProcError.stellarTransient m) :=
  (C9_submit_retry_policy OnrampProcessorConfig.default
      (fun k => if k = 0
        then Except.error (ProcError.stellarTransient "tx_bad_seq")
        else Except.ok "stellar-hash")).2.2.1 0 (by decide)

end Aframp

